import Mathlib

/-!
Verification of the Freakuency split-tunnel core against its specification.

The definitions below are a shallow embedding of the Python sources:

* `src/core/split_engine.py` — the engine supervisor, the outbound diverter
  loop body, the inbound diverter loop body, and the NAT-table prune.
* `src/core/port_lookup.py` — the port→PID resolver with its grow-only
  buffer retry loop.
* `src/core/network_utils.py` — the split-route programmer.

IP addresses are modelled as `String` (the Python code compares the address
strings directly).  Python dicts are modelled as association lists kept in
insertion order (CPython dicts preserve insertion order, which the NAT prune
relies on): assignment to an existing key updates the entry in place,
assignment to a fresh key appends.  The outbound loop body is modelled as a
function that returns the new NAT table together with the ordered list of
observable events (NAT insertions and packet re-injections), so that the
insert-before-inject ordering is visible in the model.
-/

set_option autoImplicit false

namespace Freakuency

/-- A decoded IPv4 TCP/UDP packet as exposed by the capture layer (pydivert):
mutable fields `src_addr`, `dst_addr`, `src_port`, `dst_port`, the interface
metadata pair `(if_index, sub_if_index)`, and the remaining raw bytes
(headers/payload the engine never touches), so that "byte-identical" claims
are equality of the whole structure. -/
structure Packet where
  src_addr : String
  dst_addr : String
  src_port : Nat
  dst_port : Nat
  interface : Nat × Nat
  payload : List Nat
deriving DecidableEq, Repr

/-- NAT key `(remote_ip, remote_port, local_port)` — in the outbound loop,
`(dst_ip, dst_port, src_port)` (split_engine.py line 374). -/
abbrev NatKey := String × Nat × Nat

/-- NAT value `(original_local_ip, original_if_index)` (split_engine.py line 79). -/
abbrev NatVal := String × Nat

/-- The NAT dict, as an insertion-ordered association list. -/
abbrev NatTable := List (NatKey × NatVal)

/-- Python `d.get(k)` on the NAT dict. -/
def dictGet (l : NatTable) (k : NatKey) : Option NatVal :=
  (l.find? (fun e => e.1 = k)).map (fun e => e.2)

/-- Python `d[k] = v`: update in place if the key is present (keeping its
position), otherwise append at the end (CPython insertion-order semantics). -/
def dictInsert (k : NatKey) (v : NatVal) (l : NatTable) : NatTable :=
  if l.any (fun e => e.1 = k) then
    l.map (fun e => if e.1 = k then (k, v) else e)
  else
    l ++ [(k, v)]

/-- Python `del d[k]` (keys are unique in a dict, so removing every entry
with key `k` is the same operation). -/
def dictDel (k : NatKey) (l : NatTable) : NatTable :=
  l.filter (fun e => ¬ e.1 = k)

/-- The engine state relevant to the packet loops: configuration fields set
by `start`, the tracker-owned flow tables, and the NAT table
(split_engine.py `SplitEngine.__init__` / `start`). -/
structure SplitEngine where
  mode : String
  vpn_ip : String
  default_ip : String
  vpn_if_index : Option Nat
  default_if_index : Option Nat
  toggled_apps : List String
  conn_table : List ((String × Nat) × String)
  port_table : List (Nat × String)
  nat_table : NatTable
  running : Bool
deriving DecidableEq, Repr

/-- `self._conn_table.get((src_ip, src_port))` (split_engine.py line 348). -/
def lookupEndpoint (t : List ((String × Nat) × String)) (k : String × Nat) :
    Option String :=
  (t.find? (fun e => e.1 = k)).map (fun e => e.2)

/-- `self._port_table.get(src_port)` (split_engine.py line 350). -/
def lookupPort (t : List (Nat × String)) (p : Nat) : Option String :=
  (t.find? (fun e => e.1 = p)).map (fun e => e.2)

/-- Observable actions of one outbound loop iteration, in execution order:
a write to the NAT table, or a `send` (re-injection) of a packet. -/
inductive OutEvent where
  | natInsert : NatKey → NatVal → OutEvent
  | send : Packet → OutEvent
deriving DecidableEq, Repr

/-- The fast-path test of the outbound loop (split_engine.py lines 336-344):
in `vpn_default` mode a packet whose source is `default_ip` is already on
the direct path; in `direct_default` mode a packet whose source is `vpn_ip`
is already on VPN; any other mode string has no fast path. -/
def fastPathHit (st : SplitEngine) (pkt : Packet) : Bool :=
  if st.mode = "vpn_default" then pkt.src_addr = st.default_ip
  else if st.mode = "direct_default" then pkt.src_addr = st.vpn_ip
  else false

/-- The attribution chain of the outbound loop (split_engine.py lines
346-356): `conn_table.get((src_ip, src_port))`, on miss
`port_table.get(src_port)`, on miss the synchronous resolver
`_resolve_port_exe(src_port)` (passed in as `resolver`). -/
def attributeExe (st : SplitEngine) (resolver : Nat → Option String)
    (pkt : Packet) : Option String :=
  match lookupEndpoint st.conn_table (pkt.src_addr, pkt.src_port) with
  | some e => some e
  | none =>
    match lookupPort st.port_table pkt.src_port with
    | some e => some e
    | none => resolver pkt.src_port

/-- One iteration of the outbound interceptor loop body (split_engine.py
lines 327-384) for a received packet: returns the NAT table after the
iteration and the ordered event list.  `if not exe or exe not in
self._toggled_apps` is the Python truthiness test: it passes the packet
unchanged when the attribution is `None`, the empty string, or a path not in
the toggled set.  In the rewrite branch, any mode other than
`"vpn_default"` selects the `direct_default` rewrite (the source's bare
`else`), the NAT entry is written before `send`, and the interface metadata
is set only when the target index is present. -/
def processOutbound (st : SplitEngine) (resolver : Nat → Option String)
    (pkt : Packet) : NatTable × List OutEvent :=
  if fastPathHit st pkt then
    (st.nat_table, [OutEvent.send pkt])
  else
    match attributeExe st resolver pkt with
    | none => (st.nat_table, [OutEvent.send pkt])
    | some exe =>
      if exe = "" ∨ exe ∉ st.toggled_apps then
        (st.nat_table, [OutEvent.send pkt])
      else
        let target : String × Option Nat :=
          if st.mode = "vpn_default" then (st.default_ip, st.default_if_index)
          else (st.vpn_ip, st.vpn_if_index)
        let nat_key : NatKey := (pkt.dst_addr, pkt.dst_port, pkt.src_port)
        let nat_val : NatVal := (pkt.src_addr, pkt.interface.1)
        let nat' := dictInsert nat_key nat_val st.nat_table
        let pkt' : Packet :=
          match target.2 with
          | some i => { pkt with src_addr := target.1, interface := (i, 0) }
          | none => { pkt with src_addr := target.1 }
        (nat', [OutEvent.natInsert nat_key nat_val, OutEvent.send pkt'])

/-- One iteration of the inbound interceptor loop body (split_engine.py
lines 432-446): look up the NAT table under
`(packet.src_addr, packet.src_port, packet.dst_port)`; on a hit whose
stored IP differs from the packet's destination, restore the destination
address and the delivery interface; then re-inject the (possibly modified)
packet, which this function returns. -/
def processInbound (nat : NatTable) (pkt : Packet) : Packet :=
  match dictGet nat (pkt.src_addr, pkt.src_port, pkt.dst_port) with
  | none => pkt
  | some entry =>
    if pkt.dst_addr ≠ entry.1 then
      { pkt with dst_addr := entry.1, interface := (entry.2, 0) }
    else
      pkt

/-- `SplitEngine.cleanup_nat_table` (split_engine.py lines 464-471): when the
table holds more than `max_entries` entries (the Python default argument is
50000), delete the first `len(keys) // 2` keys in iteration (= insertion)
order. -/
def cleanup_nat_table (nat : NatTable) (max_entries : Nat) : NatTable :=
  if nat.length > max_entries then
    ((nat.map Prod.fst).take (nat.length / 2)).foldl
      (fun acc k => dictDel k acc) nat
  else
    nat

/-! ### Engine supervisor (`SplitEngine.start`, split_engine.py lines 95-147)

`start` raises `RuntimeError("pydivert is not installed...")` when the
`pydivert` import failed, before touching any state; otherwise it resets the
tables, stores the configuration, sets `_running = True` and spawns the
worker threads.  A failure to open a capture handle happens *inside* a
worker thread (lines 298-309 / 404-415): it is caught there, logged, and the
thread returns — nothing is raised out of `start`.  The environment record
carries those external facts (is pydivert importable, would the capture
opens succeed). -/

/-- The error kinds of the spec's taxonomy for `start`. -/
inductive StartError where
  | NotInstalled : StartError
  | CaptureOpen : String → StartError
deriving DecidableEq, Repr

/-- External conditions `start` and the workers run under. -/
structure Env where
  pydivert_available : Bool
  outbound_open_ok : Bool
  inbound_open_ok : Bool
deriving DecidableEq, Repr

/-- `os.path.normcase`: on Windows this case-folds the path (it also flips
forward slashes to backslashes, which no claim here exercises); falsy (empty)
input is returned as-is (`_norm_path`, split_engine.py lines 35-37). -/
def _norm_path (p : String) : String :=
  if p = "" then p else p.toLower

/-- The configuration arguments of `SplitEngine.start`. -/
structure StartConfig where
  mode : String
  vpn_ip : String
  default_ip : String
  toggled_apps : List String
  vpn_if_index : Option Nat
  default_if_index : Option Nat
  default_gateway : Option String
deriving DecidableEq, Repr

/-- `SplitEngine.start` (split_engine.py lines 95-147).  Returns the engine
state after the call together with the raised error, if any: the
`pydivert is None` check happens before any mutation, so on
`NotInstalled` the state `st` comes back untouched.  Note the result does
not depend on `env.outbound_open_ok` / `env.inbound_open_ok`: the capture
handle opens happen asynchronously inside the spawned workers. -/
def startEngine (env : Env) (st : SplitEngine) (cfg : StartConfig) :
    SplitEngine × Option StartError :=
  if env.pydivert_available = false then
    (st, some StartError.NotInstalled)
  else
    let started : SplitEngine :=
      { mode := cfg.mode
        vpn_ip := cfg.vpn_ip
        default_ip := cfg.default_ip
        vpn_if_index := cfg.vpn_if_index
        default_if_index := cfg.default_if_index
        toggled_apps := cfg.toggled_apps.map _norm_path
        conn_table := []
        port_table := []
        nat_table := []
        running := true }
    (started, none)

/-- The outbound worker body (split_engine.py lines 295-396): if the capture
handle cannot be opened the error is logged and the worker returns having
processed nothing; otherwise each received packet goes through the loop body,
threading the NAT table.  Returns the final NAT table and the concatenated
event trace. -/
def runOutboundWorker (env : Env) (st : SplitEngine)
    (resolver : Nat → Option String) (pkts : List Packet) :
    NatTable × List OutEvent :=
  if env.outbound_open_ok = false then
    (st.nat_table, [])
  else
    pkts.foldl
      (fun acc pkt =>
        let step := processOutbound { st with nat_table := acc.1 } resolver pkt
        (step.1, acc.2 ++ step.2))
      (st.nat_table, [])

/-! ### Route programmer (`network_utils.py` lines 166-205 and the call site
`split_engine.py` lines 121-125) -/

/-- One `route add` invocation: `route add dest mask mask gateway metric 9999
IF if_index`. -/
structure RouteCmd where
  dest : String
  mask : String
  gateway : String
  metric : Nat
  if_index : Nat
deriving DecidableEq, Repr

/-- `_SPLIT_ROUTES` (network_utils.py lines 166-169): the two /1 halves of
the IPv4 unicast space. -/
def _SPLIT_ROUTES : List (String × String) :=
  [("0.0.0.0", "128.0.0.0"), ("128.0.0.0", "128.0.0.0")]

/-- `add_split_routes(gateway_ip, if_index)` (network_utils.py lines
172-190), abstracted to the list of route-add commands it issues, in order. -/
def add_split_routes (gateway_ip : String) (if_index : Nat) : List RouteCmd :=
  _SPLIT_ROUTES.map (fun dm => ⟨dm.1, dm.2, gateway_ip, 9999, if_index⟩)

/-- `add_split_routes` actually run against an OS whose per-command outcome
is `osAdd` (`True` = route added): each command sits in its own
`try/except`, so every command is attempted and its failure only affects the
log line — never control flow.  Returns each attempted command paired with
its outcome. -/
def runAddSplitRoutes (osAdd : RouteCmd → Bool) (gateway_ip : String)
    (if_index : Nat) : List (RouteCmd × Bool) :=
  (add_split_routes gateway_ip if_index).map (fun c => (c, osAdd c))

/-- The supervisor's route-programming gate (split_engine.py lines 121-125):
`if self._default_gateway and self._default_if_index:` — Python truthiness
on both, so programming runs only when the gateway is a non-empty string AND
the interface index is present and non-zero. -/
def startRouteCmds : Option String → Option Nat → List RouteCmd
  | some g, some i =>
    if g ≠ "" ∧ i ≠ 0 then add_split_routes g i else []
  | _, _ => []

/-! ### Port→PID resolver (`port_lookup.py`) -/

/-- One row of the extended TCP table (`_TcpRow`, port_lookup.py lines
36-44); ports are stored in network byte order. -/
structure TcpRow where
  dwState : Nat
  dwLocalAddr : Nat
  dwLocalPort : Nat
  dwRemoteAddr : Nat
  dwRemotePort : Nat
  dwOwningPid : Nat
deriving DecidableEq, Repr

/-- One row of the extended UDP table (`_UdpRow`, port_lookup.py lines
54-59). -/
structure UdpRow where
  dwLocalAddr : Nat
  dwLocalPort : Nat
  dwOwningPid : Nat
deriving DecidableEq, Repr

/-- Outcome of one `GetExtendedTcpTable` / `GetExtendedUdpTable` call: the
rows on `NO_ERROR`, the required byte count on `ERROR_INSUFFICIENT_BUFFER`
(122), or any other error code. -/
inductive OsReply (ρ : Type) where
  | ok : List ρ → OsReply ρ
  | insufficientBuffer : Nat → OsReply ρ
  | err : Nat → OsReply ρ
deriving DecidableEq, Repr

/-- `_htons` (port_lookup.py lines 27-29): host-order 16-bit port to network
byte order. -/
def _htons (port : Nat) : Nat :=
  ((port >>> 8) &&& 0xFF) ||| ((port &&& 0xFF) <<< 8)

/-- `_Buffer.grow(needed)` (port_lookup.py lines 108-112): grow-only; when
`needed` exceeds the current size, the new size is the requested size plus
25% headroom (`needed + needed // 4`). -/
def bufferGrow (size needed : Nat) : Nat :=
  if needed > size then needed + needed / 4 else size

/-- The retry loop of `get_pid_for_tcp_port` / `get_pid_for_udp_port`
(port_lookup.py lines 129-142): up to `fuel` (= `_MAX_RETRIES` = 5) calls,
each passing the current buffer size to the OS (`os`); on
`ERROR_INSUFFICIENT_BUFFER` grow and retry, on any other error return
`None`; the `for…else` returns `None` when the fuel runs out.  Returns the
rows obtained (or none), the final buffer size, and the list of buffer sizes
passed to the OS, in call order. -/
def tableQuery {ρ : Type} (os : Nat → OsReply ρ) :
    Nat → Nat → Option (List ρ) × Nat × List Nat
  | 0, size => (none, size, [])
  | fuel + 1, size =>
    match os size with
    | OsReply.ok rows => (some rows, size, [size])
    | OsReply.insufficientBuffer needed =>
      let size' := bufferGrow size needed
      let rest := tableQuery os fuel size'
      (rest.1, rest.2.1, size :: rest.2.2)
    | OsReply.err _ => (none, size, [size])

/-- `_MAX_RETRIES` (port_lookup.py line 24). -/
def _MAX_RETRIES : Nat := 5

/-- The row scan of `get_pid_for_tcp_port` (port_lookup.py lines 148-153):
return at the *first* row whose local port matches — its PID when non-zero,
`None` when that row's PID is zero. -/
def scanTcpRows (netPort : Nat) : List TcpRow → Option Nat
  | [] => none
  | r :: rs =>
    if r.dwLocalPort = netPort then
      if r.dwOwningPid ≠ 0 then some r.dwOwningPid else none
    else
      scanTcpRows netPort rs

/-- The row scan of `get_pid_for_udp_port` (port_lookup.py lines 181-186). -/
def scanUdpRows (netPort : Nat) : List UdpRow → Option Nat
  | [] => none
  | r :: rs =>
    if r.dwLocalPort = netPort then
      if r.dwOwningPid ≠ 0 then some r.dwOwningPid else none
    else
      scanUdpRows netPort rs

/-- `get_pid_for_tcp_port(port)` (port_lookup.py lines 123-153), over the OS
reply function `os` and the current reusable-buffer size `bufSize`. -/
def get_pid_for_tcp_port (os : Nat → OsReply TcpRow) (bufSize : Nat)
    (port : Nat) : Option Nat :=
  match (tableQuery os _MAX_RETRIES bufSize).1 with
  | some rows => scanTcpRows (_htons port) rows
  | none => none

/-- `get_pid_for_udp_port(port)` (port_lookup.py lines 156-186). -/
def get_pid_for_udp_port (os : Nat → OsReply UdpRow) (bufSize : Nat)
    (port : Nat) : Option Nat :=
  match (tableQuery os _MAX_RETRIES bufSize).1 with
  | some rows => scanUdpRows (_htons port) rows
  | none => none

/-- `SplitEngine._resolve_port_exe(port)` (split_engine.py lines 217-233):
try the TCP table, on `None` the UDP table; if the PID is truthy (non-zero)
resolve it to an executable path (`_resolve_exe`, passed in as
`resolveExe`), else `None`. -/
def _resolve_port_exe (tcpOs : Nat → OsReply TcpRow)
    (udpOs : Nat → OsReply UdpRow) (tcpBuf udpBuf : Nat)
    (resolveExe : Nat → Option String) (port : Nat) : Option String :=
  let pid :=
    match get_pid_for_tcp_port tcpOs tcpBuf port with
    | some p => some p
    | none => get_pid_for_udp_port udpOs udpBuf port
  match pid with
  | some p => if p ≠ 0 then resolveExe p else none
  | none => none

/-- The packet produced by the slow-path mutation (split_engine.py lines
365-382): source address set to the rewrite target, and the interface
metadata set to `(target_if_index, 0)` only when the target index is
present.  `processOutbound`'s rewrite branch produces exactly this packet
(`processOutbound_rewrite` below). -/
def rewrittenPacket (st : SplitEngine) (pkt : Packet) : Packet :=
  let target : String × Option Nat :=
    if st.mode = "vpn_default" then (st.default_ip, st.default_if_index)
    else (st.vpn_ip, st.vpn_if_index)
  match target.2 with
  | some i => { pkt with src_addr := target.1, interface := (i, 0) }
  | none => { pkt with src_addr := target.1 }

/-- The NAT key the outbound loop uses for a packet (split_engine.py
line 374). -/
def natKeyOf (pkt : Packet) : NatKey :=
  (pkt.dst_addr, pkt.dst_port, pkt.src_port)

/-- The NAT value the outbound loop stores for a packet (split_engine.py
line 376). -/
def natValOf (pkt : Packet) : NatVal :=
  (pkt.src_addr, pkt.interface.1)

/-- A NAT table of `n` distinct-keyed entries, used to exercise the prune
bound concretely: entry `i` has key `("r", i, 0)`. -/
def mkNatTable (n : Nat) : NatTable :=
  (List.range n).map (fun i => (("r", i, 0), ("ip", 0)))

/-! ### Concrete fixtures

The spec's S1 scenario: `browser.exe` (toggled) sends
`10.0.0.5:44000 → 8.8.8.8:443` in `vpn_default` mode with
`default_ip = 192.168.1.20`, `default_if_index = 7`. -/

def pktW : Packet := ⟨"10.0.0.5", "8.8.8.8", 44000, 443, (3, 0), [1, 2, 3]⟩

def stW : SplitEngine :=
  { mode := "vpn_default"
    vpn_ip := "10.0.0.5"
    default_ip := "192.168.1.20"
    vpn_if_index := some 12
    default_if_index := some 7
    toggled_apps := ["browser.exe"]
    conn_table := [(("10.0.0.5", 44000), "browser.exe")]
    port_table := []
    nat_table := []
    running := true }

def resolverW : Nat → Option String := fun _ => none

/-- S3 variant: nothing toggled. -/
def stPassW : SplitEngine := { stW with toggled_apps := [] }

/-- An unrecognized mode string, for the mode-fallthrough claim. -/
def stFunkyW : SplitEngine := { stW with mode := "funky" }

/-- NAT state after S1, and S2's reply packet arriving on interface 7. -/
def natW : NatTable := [(("8.8.8.8", 443, 44000), ("10.0.0.5", 3))]

def pktInW : Packet := ⟨"8.8.8.8", "192.168.1.20", 443, 44000, (7, 0), []⟩

/-- An engine that has never been started. -/
def engine0 : SplitEngine :=
  ⟨"vpn_default", "", "", none, none, [], [], [], [], false⟩

def cfg0 : StartConfig :=
  ⟨"vpn_default", "10.0.0.5", "192.168.1.20", ["Browser.EXE"], some 12, some 7,
    some "192.168.1.1"⟩

/-- pydivert importable, but neither capture handle can be opened. -/
def envCaptureBroken : Env := ⟨true, false, false⟩

/-- pydivert missing. -/
def envNoPydivert : Env := ⟨false, true, true⟩

/-- A TCP-table OS reply: one listening row owned by PID 42 on port 80
(network byte order). -/
def tcpOsW : Nat → OsReply TcpRow :=
  fun _ => OsReply.ok [⟨2, 0, _htons 80, 0, 0, 42⟩]

def udpOsW : Nat → OsReply UdpRow := fun _ => OsReply.ok []

def resolveExeW : Nat → Option String :=
  fun p => if p = 42 then some "browser.exe" else none

/-! ## Helper lemmas -/

/-- Looking up the key just assigned returns the value just assigned. -/
theorem dictGet_dictInsert_self (k : NatKey) (v : NatVal) (l : NatTable) :
    dictGet (dictInsert k v l) k = some v := by
  unfold dictInsert
  by_cases h : l.any (fun e => e.1 = k) = true
  · rw [if_pos h]
    induction l with
    | nil => simp at h
    | cons x t ih =>
      by_cases hx : x.1 = k
      · simp [dictGet, hx]
      · have ht : t.any (fun e => e.1 = k) = true := by
          simpa [List.any_cons, hx] using h
        simpa [dictGet, hx] using ih ht
  · rw [if_neg h]
    rw [Bool.not_eq_true, List.any_eq_false] at h
    have hl : l.find? (fun e => e.1 = k) = none := by
      rw [List.find?_eq_none]
      intro x hx
      simpa using h x hx
    simp [dictGet, List.find?_append, hl]

/-- Assigning a fresh key appends the new entry. -/
theorem dictInsert_fresh (k : NatKey) (v : NatVal) (l : NatTable)
    (h : ∀ x ∈ l, ¬ x.1 = k) : dictInsert k v l = l ++ [(k, v)] := by
  have hany : l.any (fun e => e.1 = k) = false := by
    rw [List.any_eq_false]
    intro x hx
    simpa using h x hx
  unfold dictInsert
  rw [hany]
  simp

/-- Deleting a key that is not present leaves the table unchanged. -/
theorem dictDel_not_mem (k : NatKey) (l : NatTable)
    (h : ∀ x ∈ l, ¬ x.1 = k) : dictDel k l = l := by
  unfold dictDel
  rw [List.filter_eq_self]
  intro x hx
  simpa using h x hx

/-- Deleting the first `m` keys (in order) of a table with pairwise distinct
keys drops its first `m` entries. -/
theorem foldl_dictDel_take (l : NatTable) :
    (l.map Prod.fst).Nodup →
    ∀ m, ((l.map Prod.fst).take m).foldl (fun acc k => dictDel k acc) l =
      l.drop m := by
  induction l with
  | nil => intro _ m; simp
  | cons x t ih =>
    intro h m
    rw [List.map_cons, List.nodup_cons] at h
    match m with
    | 0 => simp
    | m + 1 =>
      have hx : ∀ y ∈ t, ¬ y.1 = x.1 := by
        intro y hy heq
        apply h.1
        rw [← heq]
        exact List.mem_map_of_mem Prod.fst hy
      have hdel : dictDel x.1 (x :: t) = t := by
        have h2 : dictDel x.1 (x :: t) = dictDel x.1 t := by
          unfold dictDel
          simp
        rw [h2, dictDel_not_mem x.1 t hx]
      simp only [List.map_cons, List.take_succ_cons, List.foldl_cons,
        List.drop_succ_cons]
      rw [hdel]
      exact ih h.2 m

/-- The prune deletes exactly the oldest `⌊n/2⌋` entries of an
`n`-entry table (distinct keys) when `n` exceeds the bound. -/
theorem cleanup_nat_table_eq_drop (l : NatTable) (max_entries : Nat)
    (h : (l.map Prod.fst).Nodup) (hlen : l.length > max_entries) :
    cleanup_nat_table l max_entries = l.drop (l.length / 2) := by
  unfold cleanup_nat_table
  rw [if_pos hlen]
  exact foldl_dictDel_take l h (l.length / 2)

/-- The prune is the identity at or below the bound. -/
theorem cleanup_nat_table_eq_self (l : NatTable) (max_entries : Nat)
    (hlen : ¬ l.length > max_entries) :
    cleanup_nat_table l max_entries = l := by
  unfold cleanup_nat_table
  rw [if_neg hlen]

theorem mkNatTable_length (n : Nat) : (mkNatTable n).length = n := by
  simp [mkNatTable]

theorem mkNatTable_keys_nodup (n : Nat) :
    ((mkNatTable n).map Prod.fst).Nodup := by
  unfold mkNatTable
  rw [List.map_map]
  apply List.Nodup.map _ (List.nodup_range n)
  intro a b hab
  simpa using hab

theorem mkNatTable_succ (n : Nat) :
    mkNatTable (n + 1) = mkNatTable n ++ [(("r", n, 0), ("ip", 0))] := by
  unfold mkNatTable
  rw [List.range_succ, List.map_append]
  simp

/-- Inserting a fresh `n`-th entry into the `n`-entry table appends it. -/
theorem dictInsert_mkNatTable (n : Nat) :
    dictInsert ("r", n, 0) ("ip", 0) (mkNatTable n) = mkNatTable (n + 1) := by
  rw [mkNatTable_succ]
  apply dictInsert_fresh
  intro x hx
  unfold mkNatTable at hx
  rcases List.mem_map.mp hx with ⟨i, hi, rfl⟩
  have : i < n := List.mem_range.mp hi
  simp
  omega

/-- Shape of the slow path: past the fast path, with an attribution `e` that
is non-empty and toggled, the loop body writes the NAT entry and then sends
the rewritten packet. -/
theorem processOutbound_rewrite (st : SplitEngine)
    (resolver : Nat → Option String) (pkt : Packet) (e : String)
    (hfp : fastPathHit st pkt = false)
    (hattr : attributeExe st resolver pkt = some e)
    (hne : ¬ e = "") (htog : e ∈ st.toggled_apps) :
    processOutbound st resolver pkt =
      (dictInsert (natKeyOf pkt) (natValOf pkt) st.nat_table,
       [OutEvent.natInsert (natKeyOf pkt) (natValOf pkt),
        OutEvent.send (rewrittenPacket st pkt)]) := by
  unfold processOutbound rewrittenPacket natKeyOf natValOf
  rw [hfp, hattr]
  simp [hne, htog]

/-- Shape of the pass path: past the fast path, an attribution of `none` or
of an executable outside the toggled set sends the packet back unchanged and
leaves the NAT table alone. -/
theorem processOutbound_pass (st : SplitEngine)
    (resolver : Nat → Option String) (pkt : Packet)
    (hfp : fastPathHit st pkt = false)
    (h : attributeExe st resolver pkt = none ∨
      ∃ e, attributeExe st resolver pkt = some e ∧ e ∉ st.toggled_apps) :
    processOutbound st resolver pkt = (st.nat_table, [OutEvent.send pkt]) := by
  unfold processOutbound
  rw [hfp]
  rcases h with h | ⟨e, hattr, htog⟩
  · rw [h]
    simp
  · rw [hattr]
    simp [htog]

/-! ## Claim theorems -/

/-- Claim C1: past the fast path, an outbound packet attributed to a
(non-empty) executable in `toggled_set` is rewritten: in `vpn_default` mode
the source address becomes `default_ip` (in `direct_default` mode `vpn_ip`),
the interface metadata becomes `(default_if_index, 0)` (respectively
`(vpn_if_index, 0)`) exactly when that index is present, and the NAT table
gains the entry `(dst_ip, dst_port, src_port) ↦ (original src IP, original
interface index)`.  (Attribution in the program never yields the empty
string: `_resolve_exe` returns a non-empty path or `None`, hence the
`e ≠ ""` hypothesis.) -/
theorem outbound_toggled_rewrite (st : SplitEngine)
    (resolver : Nat → Option String) (pkt : Packet) (e : String)
    (hfp : fastPathHit st pkt = false)
    (hattr : attributeExe st resolver pkt = some e)
    (hne : ¬ e = "") (htog : e ∈ st.toggled_apps) :
    (processOutbound st resolver pkt).2 =
      [OutEvent.natInsert (pkt.dst_addr, pkt.dst_port, pkt.src_port)
        (pkt.src_addr, pkt.interface.1),
       OutEvent.send (rewrittenPacket st pkt)] ∧
    dictGet (processOutbound st resolver pkt).1
        (pkt.dst_addr, pkt.dst_port, pkt.src_port) =
      some (pkt.src_addr, pkt.interface.1) ∧
    (st.mode = "vpn_default" →
      (rewrittenPacket st pkt).src_addr = st.default_ip ∧
      (∀ i, st.default_if_index = some i →
        (rewrittenPacket st pkt).interface = (i, 0)) ∧
      (st.default_if_index = none →
        (rewrittenPacket st pkt).interface = pkt.interface)) ∧
    (st.mode = "direct_default" →
      (rewrittenPacket st pkt).src_addr = st.vpn_ip ∧
      (∀ i, st.vpn_if_index = some i →
        (rewrittenPacket st pkt).interface = (i, 0)) ∧
      (st.vpn_if_index = none →
        (rewrittenPacket st pkt).interface = pkt.interface)) := by
  have h := processOutbound_rewrite st resolver pkt e hfp hattr hne htog
  refine ⟨by rw [h]; exact rfl, by rw [h]; exact dictGet_dictInsert_self _ _ _,
    ?_, ?_⟩
  · intro hm
    unfold rewrittenPacket
    rw [if_pos hm]
    rcases hd : st.default_if_index with _ | i <;> simp [hd]
  · intro hm
    have hne' : ¬ st.mode = "vpn_default" := by
      rw [hm]
      decide
    unfold rewrittenPacket
    rw [if_neg hne']
    rcases hv : st.vpn_if_index with _ | i <;> simp [hv]

/-- Witness for C1 at the S1 scenario: the SYN of `browser.exe` is rewritten
to `192.168.1.20:44000 → 8.8.8.8:443` on interface 7 and the NAT table maps
`(8.8.8.8, 443, 44000)` to `(10.0.0.5, 3)`. -/
theorem outbound_toggled_rewrite_witness :
    (processOutbound stW resolverW pktW).2 =
      [OutEvent.natInsert ("8.8.8.8", 443, 44000) ("10.0.0.5", 3),
       OutEvent.send ⟨"192.168.1.20", "8.8.8.8", 44000, 443, (7, 0), [1, 2, 3]⟩] ∧
    dictGet (processOutbound stW resolverW pktW).1 ("8.8.8.8", 443, 44000) =
      some ("10.0.0.5", 3) := by
  have h := outbound_toggled_rewrite stW resolverW pktW "browser.exe"
    (by decide) (by decide) (by decide) (by decide)
  exact ⟨h.1.trans (by decide), h.2.1.trans (by decide)⟩

/-- Claim C2: the inbound diverter looks the NAT table up under
`(src IP, src port, dst port)`; with no entry the packet is re-injected
unchanged; with an entry `(original_local_ip, original_if_index)` the
re-injected packet's destination address equals `original_local_ip`, and the
interface metadata is `(original_if_index, 0)` whenever the destination had
to be changed. -/
theorem inbound_reverse_nat (nat : NatTable) (pkt : Packet) :
    (dictGet nat (pkt.src_addr, pkt.src_port, pkt.dst_port) = none →
      processInbound nat pkt = pkt) ∧
    (∀ ip idx,
      dictGet nat (pkt.src_addr, pkt.src_port, pkt.dst_port) = some (ip, idx) →
      (processInbound nat pkt).dst_addr = ip ∧
      (pkt.dst_addr ≠ ip → (processInbound nat pkt).interface = (idx, 0))) := by
  constructor
  · intro h
    unfold processInbound
    rw [h]
  · intro ip idx h
    unfold processInbound
    rw [h]
    dsimp only
    by_cases hd : pkt.dst_addr ≠ ip
    · rw [if_pos hd]
      exact ⟨rfl, fun _ => rfl⟩
    · rw [if_neg hd]
      push_neg at hd
      exact ⟨hd, fun h' => absurd hd h'⟩

/-- Witness for C2 at the S2 scenario: the reply `8.8.8.8:443 →
192.168.1.20:44000` is reverse-NATed to destination `10.0.0.5` on
interface 3. -/
theorem inbound_reverse_nat_witness :
    (processInbound natW pktInW).dst_addr = "10.0.0.5" ∧
    (processInbound natW pktInW).interface = (3, 0) := by
  have h := (inbound_reverse_nat natW pktInW).2 "10.0.0.5" 3 (by decide)
  exact ⟨h.1, h.2 (by decide)⟩

/-- Claim C3: for a packet the outbound diverter rewrites, the NAT write is
the event strictly before the `send` of the rewritten packet — in the loop
body's event trace every NAT insertion precedes every re-injection, and the
inserted entry is retrievable from the NAT table the loop publishes. -/
theorem nat_insert_before_inject (st : SplitEngine)
    (resolver : Nat → Option String) (pkt : Packet) (e : String)
    (hfp : fastPathHit st pkt = false)
    (hattr : attributeExe st resolver pkt = some e)
    (hne : ¬ e = "") (htog : e ∈ st.toggled_apps) :
    (processOutbound st resolver pkt).2 =
      [OutEvent.natInsert (natKeyOf pkt) (natValOf pkt),
       OutEvent.send (rewrittenPacket st pkt)] ∧
    dictGet (processOutbound st resolver pkt).1 (natKeyOf pkt) =
      some (natValOf pkt) ∧
    (∀ (i j : Nat) (p : Packet) (k : NatKey) (v : NatVal),
      (processOutbound st resolver pkt).2[i]? = some (OutEvent.send p) →
      (processOutbound st resolver pkt).2[j]? = some (OutEvent.natInsert k v) →
      j < i) := by
  have h := processOutbound_rewrite st resolver pkt e hfp hattr hne htog
  refine ⟨by rw [h], by rw [h]; exact dictGet_dictInsert_self _ _ _, ?_⟩
  intro i j p k v hi hj
  rw [h] at hi hj
  have hj0 : j = 0 := by
    match j, hj with
    | 0, _ => rfl
    | 1, hj => simp at hj
    | j + 2, hj => simp at hj
  have hi1 : i = 1 := by
    match i, hi with
    | 0, hi => simp at hi
    | 1, _ => rfl
    | i + 2, hi => simp at hi
  omega

/-- Witness for C3 at the S1 scenario: the trace is exactly
`[natInsert, send]`, and index 0 (the insert) precedes index 1 (the send). -/
theorem nat_insert_before_inject_witness :
    (processOutbound stW resolverW pktW).2[0]? =
      some (OutEvent.natInsert ("8.8.8.8", 443, 44000) ("10.0.0.5", 3)) ∧
    (processOutbound stW resolverW pktW).2[1]? =
      some (OutEvent.send
        ⟨"192.168.1.20", "8.8.8.8", 44000, 443, (7, 0), [1, 2, 3]⟩) := by
  have h := nat_insert_before_inject stW resolverW pktW "browser.exe"
    (by decide) (by decide) (by decide) (by decide)
  rw [h.1]
  exact ⟨by decide, by decide⟩

/-- Claim C4: an outbound packet whose source IP is `default_ip` in
`vpn_default` mode (symmetrically `vpn_ip` in `direct_default` mode) is
re-injected with its source unchanged and no NAT entry, whatever the flow
tables, toggled set and resolver say — the fast path precedes every
lookup, so the result is independent of them. -/
theorem fast_path_preserves_source (st : SplitEngine) (pkt : Packet)
    (h : (st.mode = "vpn_default" ∧ pkt.src_addr = st.default_ip) ∨
         (st.mode = "direct_default" ∧ pkt.src_addr = st.vpn_ip)) :
    ∀ (ct : List ((String × Nat) × String)) (pt : List (Nat × String))
      (tg : List String) (resolver : Nat → Option String),
      processOutbound
          { st with conn_table := ct, port_table := pt, toggled_apps := tg }
          resolver pkt =
        (st.nat_table, [OutEvent.send pkt]) := by
  intro ct pt tg resolver
  have hfp : fastPathHit
      { st with conn_table := ct, port_table := pt, toggled_apps := tg }
      pkt = true := by
    unfold fastPathHit
    rcases h with ⟨h1, h2⟩ | ⟨h1, h2⟩ <;> simp [h1, h2]
  unfold processOutbound
  rw [hfp]
  simp

/-- Witness for C4: `vpn_default` traffic already sourced from
`192.168.1.20` (e.g. the VPN client's own outer packets) passes unchanged
even though its port is attributed to the toggled `browser.exe`. -/
theorem fast_path_preserves_source_witness :
    processOutbound
        { stW with conn_table := [(("192.168.1.20", 44000), "browser.exe")],
                   port_table := [(44000, "browser.exe")],
                   toggled_apps := ["browser.exe"] }
        resolverW ⟨"192.168.1.20", "8.8.8.8", 44000, 443, (3, 0), [1, 2, 3]⟩ =
      (stW.nat_table,
       [OutEvent.send ⟨"192.168.1.20", "8.8.8.8", 44000, 443, (3, 0), [1, 2, 3]⟩]) :=
  fast_path_preserves_source stW
    ⟨"192.168.1.20", "8.8.8.8", 44000, 443, (3, 0), [1, 2, 3]⟩
    (Or.inl ⟨by decide, by decide⟩)
    [(("192.168.1.20", 44000), "browser.exe")] [(44000, "browser.exe")]
    ["browser.exe"] resolverW

/-- Claim C5: past the fast path, attribution is tried in order —
`by_endpoint` on `(src_ip, src_port)` (independent of the port table and
resolver), then `by_port` on `src_port` (independent of the resolver), then
the synchronous resolver — and an attribution of `none` or of an executable
outside `toggled_set` re-injects the packet byte-identical, with no field
mutated and no NAT entry created. -/
theorem attribution_order_and_pass (st : SplitEngine)
    (resolver : Nat → Option String) (pkt : Packet) :
    (∀ e, lookupEndpoint st.conn_table (pkt.src_addr, pkt.src_port) = some e →
      ∀ (pt : List (Nat × String)) (r' : Nat → Option String),
        attributeExe { st with port_table := pt } r' pkt = some e) ∧
    (lookupEndpoint st.conn_table (pkt.src_addr, pkt.src_port) = none →
      ∀ e, lookupPort st.port_table pkt.src_port = some e →
        ∀ r' : Nat → Option String, attributeExe st r' pkt = some e) ∧
    (lookupEndpoint st.conn_table (pkt.src_addr, pkt.src_port) = none →
      lookupPort st.port_table pkt.src_port = none →
      attributeExe st resolver pkt = resolver pkt.src_port) ∧
    (fastPathHit st pkt = false → attributeExe st resolver pkt = none →
      processOutbound st resolver pkt = (st.nat_table, [OutEvent.send pkt])) ∧
    (fastPathHit st pkt = false →
      ∀ e, attributeExe st resolver pkt = some e → e ∉ st.toggled_apps →
      processOutbound st resolver pkt = (st.nat_table, [OutEvent.send pkt])) := by
  refine ⟨?_, ?_, ?_, ?_, ?_⟩
  · intro e he pt r'
    unfold attributeExe
    rw [he]
  · intro hn e hp r'
    unfold attributeExe
    rw [hn, hp]
  · intro hn hp
    unfold attributeExe
    rw [hn, hp]
  · intro hfp hn
    exact processOutbound_pass st resolver pkt hfp (Or.inl hn)
  · intro hfp e he htog
    exact processOutbound_pass st resolver pkt hfp (Or.inr ⟨e, he, htog⟩)

/-- Witness for C5 at the S3 scenario: with an empty toggled set the same
SYN is re-injected byte-identical and the NAT table stays empty; and the
endpoint table wins over port table and resolver. -/
theorem attribution_order_and_pass_witness :
    attributeExe stPassW resolverW pktW = some "browser.exe" ∧
    processOutbound stPassW resolverW pktW =
      (stPassW.nat_table, [OutEvent.send pktW]) := by
  have h := attribution_order_and_pass stPassW resolverW pktW
  exact ⟨h.1 "browser.exe" (by decide) stPassW.port_table resolverW,
    h.2.2.2.2 (by decide) "browser.exe" (by decide) (by decide)⟩

/-- Claim C10: in the rewrite step, every mode other than `"vpn_default"` —
including strings that are neither recognized value — selects the
`direct_default` rewrite (new source `vpn_ip`, target interface
`vpn_if_index`), and for a mode that is neither recognized value no
fast-path source-address exemption fires. -/
theorem mode_fallthrough_direct (st : SplitEngine)
    (resolver : Nat → Option String) (pkt : Packet)
    (hm : ¬ st.mode = "vpn_default") :
    (¬ st.mode = "direct_default" → fastPathHit st pkt = false) ∧
    (∀ e, fastPathHit st pkt = false →
      attributeExe st resolver pkt = some e → ¬ e = "" →
      e ∈ st.toggled_apps →
      (processOutbound st resolver pkt).2 =
        [OutEvent.natInsert (natKeyOf pkt) (natValOf pkt),
         OutEvent.send (rewrittenPacket st pkt)] ∧
      (rewrittenPacket st pkt).src_addr = st.vpn_ip ∧
      (∀ i, st.vpn_if_index = some i →
        (rewrittenPacket st pkt).interface = (i, 0)) ∧
      (st.vpn_if_index = none →
        (rewrittenPacket st pkt).interface = pkt.interface)) := by
  constructor
  · intro hm2
    unfold fastPathHit
    rw [if_neg hm, if_neg hm2]
  · intro e hfp hattr hne htog
    have h := processOutbound_rewrite st resolver pkt e hfp hattr hne htog
    refine ⟨by rw [h], ?_, ?_, ?_⟩ <;>
      unfold rewrittenPacket <;> rw [if_neg hm]
    · rcases hv : st.vpn_if_index with _ | i <;> simp [hv]
    · intro i hv
      simp [hv]
    · intro hv
      simp [hv]

/-- Witness for C10: with mode `"funky"`, the packet sourced from
`default_ip` is not exempted, and a toggled attribution gets the
`direct_default` rewrite (source `10.0.0.5`, interface 12). -/
theorem mode_fallthrough_direct_witness :
    fastPathHit stFunkyW pktW = false ∧
    (processOutbound stFunkyW resolverW pktW).2 =
      [OutEvent.natInsert ("8.8.8.8", 443, 44000) ("10.0.0.5", 3),
       OutEvent.send ⟨"10.0.0.5", "8.8.8.8", 44000, 443, (12, 0), [1, 2, 3]⟩] := by
  have h := mode_fallthrough_direct stFunkyW resolverW pktW (by decide)
  have h2 := h.2 "browser.exe" (by decide) (by decide) (by decide) (by decide)
  exact ⟨h.1 (by decide), h2.1.trans (by decide)⟩

/-- Claim C6, counterexample: the prune deletes `⌊n/2⌋` keys, so a table
that reached 50 001 entries (a 50 000-entry table plus one accepted insert)
shrinks to 25 001 entries on the next prune — not to "at most 25 000" as
the claim states. -/
theorem nat_prune_bound_counterexample :
    cleanup_nat_table (mkNatTable 50000) 50000 = mkNatTable 50000 ∧
    dictInsert ("r", 50000, 0) ("ip", 0) (mkNatTable 50000) =
      mkNatTable 50001 ∧
    (cleanup_nat_table (mkNatTable 50001) 50000).length = 25001 ∧
    ¬ (cleanup_nat_table (mkNatTable 50001) 50000).length ≤ 25000 := by
  have h1 : cleanup_nat_table (mkNatTable 50000) 50000 = mkNatTable 50000 := by
    apply cleanup_nat_table_eq_self
    rw [mkNatTable_length]
    omega
  have h3 : (cleanup_nat_table (mkNatTable 50001) 50000).length = 25001 := by
    rw [cleanup_nat_table_eq_drop (mkNatTable 50001) 50000
      (mkNatTable_keys_nodup 50001) (by rw [mkNatTable_length]; omega)]
    rw [List.length_drop, mkNatTable_length]
  exact ⟨h1, dictInsert_mkNatTable 50000, h3, by omega⟩

/-- Claim C6 (amended): the prune leaves any distinct-keyed table unchanged
at size ≤ 50 000; above 50 000 it evicts the oldest `⌊n/2⌋` keys by
insertion order; a table of exactly 50 000 entries accepts a 50 001st
insert, and the next prune shrinks it to 25 001 entries (not 25 000: only
`⌊50001/2⌋ = 25000` keys are evicted). -/
theorem nat_prune_amended (nat : NatTable)
    (h : (nat.map Prod.fst).Nodup) :
    (nat.length ≤ 50000 → cleanup_nat_table nat 50000 = nat) ∧
    (nat.length > 50000 →
      cleanup_nat_table nat 50000 = nat.drop (nat.length / 2)) ∧
    dictInsert ("r", 50000, 0) ("ip", 0) (mkNatTable 50000) =
      mkNatTable 50001 ∧
    (cleanup_nat_table (mkNatTable 50001) 50000).length = 25001 := by
  refine ⟨fun hl => cleanup_nat_table_eq_self nat 50000 (by omega),
    fun hl => cleanup_nat_table_eq_drop nat 50000 h hl,
    dictInsert_mkNatTable 50000, ?_⟩
  rw [cleanup_nat_table_eq_drop (mkNatTable 50001) 50000
    (mkNatTable_keys_nodup 50001) (by rw [mkNatTable_length]; omega)]
  rw [List.length_drop, mkNatTable_length]

/-- Witness for the amended C6 at a small distinct-keyed table. -/
theorem nat_prune_amended_witness :
    cleanup_nat_table (mkNatTable 3) 50000 = mkNatTable 3 :=
  (nat_prune_amended (mkNatTable 3) (by decide)).1 (by decide)

/-- Claim C7, counterexample: with pydivert importable but no capture handle
creatable, `start` raises nothing (no `CaptureOpen`), returns with the
engine marked running, and the outbound worker merely logs the open failure
and exits without processing anything — so `CaptureOpen` never surfaces
from `start`, and the engine is *not* left in the not-running state. -/
theorem start_captureopen_counterexample :
    envCaptureBroken.outbound_open_ok = false ∧
    (startEngine envCaptureBroken engine0 cfg0).2 = none ∧
    (startEngine envCaptureBroken engine0 cfg0).1.running = true ∧
    runOutboundWorker envCaptureBroken
        (startEngine envCaptureBroken engine0 cfg0).1 resolverW [pktW] =
      ((startEngine envCaptureBroken engine0 cfg0).1.nat_table, []) := by
  refine ⟨rfl, rfl, rfl, rfl⟩

/-- Claim C7 (amended): `start` fails exactly with `NotInstalled` when the
capture subsystem is unavailable, leaving the engine state untouched (hence
not running); when pydivert is available `start` always succeeds and marks
the engine running — a capture-open failure never surfaces from `start`
(no `CaptureOpen` error is ever returned): it makes the affected worker
exit silently, having processed no packet. -/
theorem start_error_surface (env : Env) (st : SplitEngine)
    (cfg : StartConfig) :
    (env.pydivert_available = false →
      startEngine env st cfg = (st, some StartError.NotInstalled)) ∧
    (env.pydivert_available = true →
      (startEngine env st cfg).2 = none ∧
      (startEngine env st cfg).1.running = true) ∧
    (∀ d : String,
      (startEngine env st cfg).2 ≠ some (StartError.CaptureOpen d)) ∧
    (∀ (r : Nat → Option String) (pkts : List Packet),
      env.outbound_open_ok = false →
      runOutboundWorker env st r pkts = (st.nat_table, [])) := by
  refine ⟨?_, ?_, ?_, ?_⟩
  · intro h
    unfold startEngine
    rw [h]
    rfl
  · intro h
    unfold startEngine
    rw [h]
    exact ⟨rfl, rfl⟩
  · intro d
    unfold startEngine
    rcases hb : env.pydivert_available with _ | _ <;> simp [hb]
  · intro r pkts h
    unfold runOutboundWorker
    rw [h]
    rfl

/-- Witness for the amended C7: with pydivert missing, `start` returns
`NotInstalled` and the never-started engine stays not-running. -/
theorem start_error_surface_witness :
    startEngine envNoPydivert engine0 cfg0 =
      (engine0, some StartError.NotInstalled) ∧
    engine0.running = false :=
  ⟨(start_error_surface envNoPydivert engine0 cfg0).1 rfl, rfl⟩

/-- A PID returned by the TCP row scan comes from a row whose local port
matches, and is non-zero. -/
theorem scanTcpRows_eq_some (np p : Nat) (rows : List TcpRow) :
    scanTcpRows np rows = some p →
    p ≠ 0 ∧ ∃ r ∈ rows, r.dwLocalPort = np ∧ r.dwOwningPid = p := by
  induction rows with
  | nil =>
    intro h
    simp [scanTcpRows] at h
  | cons r rs ih =>
    intro h
    unfold scanTcpRows at h
    by_cases hp : r.dwLocalPort = np
    · rw [if_pos hp] at h
      by_cases hz : r.dwOwningPid ≠ 0
      · rw [if_pos hz] at h
        have hpe : r.dwOwningPid = p := Option.some.inj h
        exact ⟨hpe ▸ hz, r, List.mem_cons_self r rs, hp, hpe⟩
      · rw [if_neg hz] at h
        simp at h
    · rw [if_neg hp] at h
      obtain ⟨hz, r', hr', hlp, hpid⟩ := ih h
      exact ⟨hz, r', List.mem_cons_of_mem r hr', hlp, hpid⟩

/-- Same for the UDP row scan. -/
theorem scanUdpRows_eq_some (np p : Nat) (rows : List UdpRow) :
    scanUdpRows np rows = some p →
    p ≠ 0 ∧ ∃ r ∈ rows, r.dwLocalPort = np ∧ r.dwOwningPid = p := by
  induction rows with
  | nil =>
    intro h
    simp [scanUdpRows] at h
  | cons r rs ih =>
    intro h
    unfold scanUdpRows at h
    by_cases hp : r.dwLocalPort = np
    · rw [if_pos hp] at h
      by_cases hz : r.dwOwningPid ≠ 0
      · rw [if_pos hz] at h
        have hpe : r.dwOwningPid = p := Option.some.inj h
        exact ⟨hpe ▸ hz, r, List.mem_cons_self r rs, hp, hpe⟩
      · rw [if_neg hz] at h
        simp at h
    · rw [if_neg hp] at h
      obtain ⟨hz, r', hr', hlp, hpid⟩ := ih h
      exact ⟨hz, r', List.mem_cons_of_mem r hr', hlp, hpid⟩

/-- When every matching row is owned by PID 0, the TCP scan yields nothing. -/
theorem scanTcpRows_eq_none (np : Nat) (rows : List TcpRow) :
    (∀ r ∈ rows, r.dwLocalPort = np → r.dwOwningPid = 0) →
    scanTcpRows np rows = none := by
  induction rows with
  | nil =>
    intro _
    rfl
  | cons r rs ih =>
    intro h
    unfold scanTcpRows
    by_cases hp : r.dwLocalPort = np
    · rw [if_pos hp]
      have hz := h r (List.mem_cons_self r rs) hp
      rw [if_neg (by simpa using hz)]
    · rw [if_neg hp]
      exact ih (fun r' hr' => h r' (List.mem_cons_of_mem r hr'))

/-- The retry loop consults the OS at most `fuel` times. -/
theorem tableQuery_calls_le {ρ : Type} (os : Nat → OsReply ρ) :
    ∀ fuel size : Nat, ((tableQuery os fuel size).2.2).length ≤ fuel := by
  intro fuel
  induction fuel with
  | zero =>
    intro size
    simp [tableQuery]
  | succ n ih =>
    intro size
    unfold tableQuery
    rcases hos : os size with rows | needed | c <;> simp
    exact ih (bufferGrow size needed)

/-- One insufficient-buffer step: the loop records the size it tried and
retries with the grown buffer. -/
theorem tableQuery_insufficient_step {ρ : Type} (os : Nat → OsReply ρ)
    (needed fuel size : Nat) (h : os size = OsReply.insufficientBuffer needed) :
    (tableQuery os (fuel + 1) size).1 =
      (tableQuery os fuel (bufferGrow size needed)).1 ∧
    (tableQuery os (fuel + 1) size).2.2 =
      size :: (tableQuery os fuel (bufferGrow size needed)).2.2 := by
  constructor
  · conv_lhs => rw [tableQuery]
    rw [h]
  · conv_lhs => rw [tableQuery]
    rw [h]

/-- A failing first OS call other than insufficient-buffer ends the query. -/
theorem tableQuery_err {ρ : Type} (os : Nat → OsReply ρ)
    (fuel size c : Nat) (h : os size = OsReply.err c) :
    (tableQuery os (fuel + 1) size).1 = none := by
  unfold tableQuery
  rw [h]

/-- Claim C8: the port→PID resolver tries the TCP table first and then the
UDP table; it returns a PID only off a row whose local port matches (in
network byte order) with a non-zero owning PID, and `none` when no query
succeeds or every matching row has PID 0; on insufficient-buffer it grows
the reusable buffer to the requested size plus 25% headroom
(`needed + needed / 4`) and retries, consulting the OS at most five times;
any other OS failure yields `none`. -/
theorem port_resolver_contract (tcpOs : Nat → OsReply TcpRow)
    (udpOs : Nat → OsReply UdpRow) (tcpBuf udpBuf port : Nat)
    (resolveExe : Nat → Option String) :
    (∀ p : Nat, get_pid_for_tcp_port tcpOs tcpBuf port = some p →
      ∀ (udpOs' : Nat → OsReply UdpRow) (udpBuf' : Nat),
        _resolve_port_exe tcpOs udpOs' tcpBuf udpBuf' resolveExe port =
          resolveExe p) ∧
    (get_pid_for_tcp_port tcpOs tcpBuf port = none →
      ∀ p : Nat, get_pid_for_udp_port udpOs udpBuf port = some p →
        _resolve_port_exe tcpOs udpOs tcpBuf udpBuf resolveExe port =
          resolveExe p) ∧
    (get_pid_for_tcp_port tcpOs tcpBuf port = none →
      get_pid_for_udp_port udpOs udpBuf port = none →
      _resolve_port_exe tcpOs udpOs tcpBuf udpBuf resolveExe port = none) ∧
    (∀ p : Nat, get_pid_for_tcp_port tcpOs tcpBuf port = some p →
      ∃ rows, (tableQuery tcpOs _MAX_RETRIES tcpBuf).1 = some rows ∧
        ∃ r ∈ rows, r.dwLocalPort = _htons port ∧ r.dwOwningPid = p ∧
          p ≠ 0) ∧
    (∀ rows, (tableQuery tcpOs _MAX_RETRIES tcpBuf).1 = some rows →
      (∀ r ∈ rows, r.dwLocalPort = _htons port → r.dwOwningPid = 0) →
      get_pid_for_tcp_port tcpOs tcpBuf port = none) ∧
    ((tableQuery tcpOs _MAX_RETRIES tcpBuf).1 = none →
      get_pid_for_tcp_port tcpOs tcpBuf port = none) ∧
    (∀ size needed : Nat,
      (size < needed → bufferGrow size needed = needed + needed / 4) ∧
      (¬ size < needed → bufferGrow size needed = size)) ∧
    (∀ needed fuel size : Nat,
      tcpOs size = OsReply.insufficientBuffer needed →
      (tableQuery tcpOs (fuel + 1) size).1 =
        (tableQuery tcpOs fuel (bufferGrow size needed)).1 ∧
      (tableQuery tcpOs (fuel + 1) size).2.2 =
        size :: (tableQuery tcpOs fuel (bufferGrow size needed)).2.2) ∧
    (((tableQuery tcpOs _MAX_RETRIES tcpBuf).2.2).length ≤ 5) ∧
    (∀ c : Nat, tcpOs tcpBuf = OsReply.err c →
      get_pid_for_tcp_port tcpOs tcpBuf port = none) := by
  have hsound : ∀ p : Nat, get_pid_for_tcp_port tcpOs tcpBuf port = some p →
      p ≠ 0 := by
    intro p hp
    unfold get_pid_for_tcp_port at hp
    rcases hq : (tableQuery tcpOs _MAX_RETRIES tcpBuf).1 with _ | rows
    · rw [hq] at hp
      simp at hp
    · rw [hq] at hp
      exact (scanTcpRows_eq_some _ _ _ hp).1
  refine ⟨?_, ?_, ?_, ?_, ?_, ?_, ?_, ?_, ?_, ?_⟩
  · intro p hp udpOs' udpBuf'
    unfold _resolve_port_exe
    rw [hp]
    simp [hsound p hp]
  · intro h1 p h2
    have hz : p ≠ 0 := by
      unfold get_pid_for_udp_port at h2
      rcases hq : (tableQuery udpOs _MAX_RETRIES udpBuf).1 with _ | rows
      · rw [hq] at h2
        simp at h2
      · rw [hq] at h2
        exact (scanUdpRows_eq_some _ _ _ h2).1
    unfold _resolve_port_exe
    rw [h1, h2]
    simp [hz]
  · intro h1 h2
    unfold _resolve_port_exe
    rw [h1, h2]
  · intro p hp
    unfold get_pid_for_tcp_port at hp
    rcases hq : (tableQuery tcpOs _MAX_RETRIES tcpBuf).1 with _ | rows
    · rw [hq] at hp
      simp at hp
    · rw [hq] at hp
      obtain ⟨hz, r, hr, hlp, hpid⟩ := scanTcpRows_eq_some _ _ _ hp
      exact ⟨rows, rfl, r, hr, hlp, hpid, hz⟩
  · intro rows hq hall
    unfold get_pid_for_tcp_port
    rw [hq]
    exact scanTcpRows_eq_none _ _ hall
  · intro hq
    unfold get_pid_for_tcp_port
    rw [hq]
  · intro size needed
    constructor
    · intro hlt
      unfold bufferGrow
      rw [if_pos hlt]
    · intro hlt
      unfold bufferGrow
      rw [if_neg hlt]
  · intro needed fuel size h
    exact tableQuery_insufficient_step tcpOs needed fuel size h
  · exact tableQuery_calls_le tcpOs _MAX_RETRIES tcpBuf
  · intro c hc
    unfold get_pid_for_tcp_port
    have h5 : (tableQuery tcpOs _MAX_RETRIES tcpBuf).1 = none := by
      have he : _MAX_RETRIES = 4 + 1 := rfl
      rw [he]
      exact tableQuery_err tcpOs 4 tcpBuf c hc
    rw [h5]

/-- Witness for C8: an OS whose TCP table holds one row for port 80 owned by
PID 42 makes the resolver return PID 42 and the executable of PID 42,
without consulting the UDP side. -/
theorem port_resolver_contract_witness :
    get_pid_for_tcp_port tcpOsW 65536 80 = some 42 ∧
    _resolve_port_exe tcpOsW udpOsW 65536 65536 resolveExeW 80 =
      some "browser.exe" := by
  have h := (port_resolver_contract tcpOsW udpOsW 65536 65536 80
    resolveExeW).1 42 (by decide) udpOsW 65536
  exact ⟨by decide, h.trans (by decide)⟩

/-- Claim C9, counterexample: with a gateway present but no default
interface index, the supervisor's gate skips route programming entirely —
so route programming is *not* skipped only when `default_gateway` is
absent. -/
theorem route_skip_counterexample :
    startRouteCmds (some "192.168.1.1") none = [] ∧
    startRouteCmds (some "192.168.1.1") (some 7) ≠ [] := by
  decide

/-- Claim C9 (amended): when both `default_gateway` and `default_if_index`
are present (and truthy), the route programmer installs exactly the two /1
IPv4 routes via that gateway on that interface at metric 9999; route
programming is skipped when either of `default_gateway` or
`default_if_index` is absent; and every route-add is attempted inside its
own exception guard, so per-route failures never change what is attempted
or propagate to the supervisor. -/
theorem split_routes_amended (g : String) (i : Nat)
    (hg : ¬ g = "") (hi : ¬ i = 0) :
    startRouteCmds (some g) (some i) =
      [⟨"0.0.0.0", "128.0.0.0", g, 9999, i⟩,
       ⟨"128.0.0.0", "128.0.0.0", g, 9999, i⟩] ∧
    (∀ gw : Option String, startRouteCmds gw none = []) ∧
    (∀ idx : Option Nat, startRouteCmds none idx = []) ∧
    (∀ osAdd : RouteCmd → Bool,
      (runAddSplitRoutes osAdd g i).map Prod.fst = add_split_routes g i ∧
      (runAddSplitRoutes osAdd g i).length = 2) := by
  refine ⟨?_, ?_, ?_, ?_⟩
  · unfold startRouteCmds
    dsimp only
    rw [if_pos ⟨hg, hi⟩]
    rfl
  · intro gw
    cases gw <;> rfl
  · intro idx
    cases idx <;> rfl
  · intro osAdd
    constructor
    · unfold runAddSplitRoutes
      rw [List.map_map]
      exact List.map_id'' (fun x => rfl) _
    · simp [runAddSplitRoutes, add_split_routes, _SPLIT_ROUTES]

/-- Witness for the amended C9 at the S1 gateway `192.168.1.1`, interface
7. -/
theorem split_routes_amended_witness :
    startRouteCmds (some "192.168.1.1") (some 7) =
      [⟨"0.0.0.0", "128.0.0.0", "192.168.1.1", 9999, 7⟩,
       ⟨"128.0.0.0", "128.0.0.0", "192.168.1.1", 9999, 7⟩] :=
  (split_routes_amended "192.168.1.1" 7 (by decide) (by decide)).1

end Freakuency
